import Mathlib

/-!
Shallow embedding of the product-sync core of `src/server.js`:
the paginated catalog fetch (`fetchAllProducts`, lines 223-295) and the
`POST /vendors/sync-products` handler (lines 1751-1924), covering the
title-keyed reconciliation map, the handle derivation, the create/update
payload mappers, the per-product loop with its inner try/catch, and the
chunked progress stream.

Modelling conventions: JavaScript values are given the types the handler
actually feeds them (titles, handles, skus, prices are strings; ids and
inventory quantities are integers); an absent (`undefined`) field is
`Option.none`; JS falsiness of a string value is `none` or the empty
string.  ASCII suffices for the string operations the claims exercise.
-/

namespace ShopSync

/-- Truthiness test for an optional JS string: `undefined` and `""` are falsy. -/
def strFalsy : Option String → Bool
  | none => true
  | some s => s == ""

/-- Keeps a truthy string, drops a falsy one; models `if (x) payload.f = x`. -/
def optTruthy : Option String → Option String
  | none => none
  | some s => if s == "" then none else some s

/-- Models the JS expression `String(v.price || "0")` on a string-valued price. -/
def jsPriceStr : Option String → String
  | none => "0"
  | some s => if s == "" then "0" else s

/-- Models `product.status || 'active'`. -/
def jsStatus : Option String → String
  | none => "active"
  | some s => if s == "" then "active" else s

/-- Models `Math.max(0, Number(v.inventory_quantity || 0))` on an integer quantity. -/
def clampInv (q : Option Int) : Int :=
  max 0 (q.getD 0)

/-- Models JS property access `map[product.title]` when `product.title` may be
`undefined`: the key is then the string `"undefined"`. -/
def jsKey : Option String → String
  | none => "undefined"
  | some t => t

/-- Tags arrive from the vendor either as an array of strings or as one
delimited string (`Array.isArray(product.tags)` branches on this). -/
inductive Tags where
  | arr (l : List String)
  | str (s : String)
deriving DecidableEq, Repr

/-- Models `product.tags.length > 0` (array length or string length). -/
def Tags.lengthPos : Tags → Bool
  | .arr l => 0 < l.length
  | .str s => 0 < s.length

/-- True when the tags value is a single string rather than an array. -/
def Tags.isStringVal : Tags → Bool
  | .arr _ => false
  | .str _ => true

/-- A declared product option of the candidate: `{name, values, position}`. -/
structure ProductOption where
  name : String
  values : List String
  position : Option Nat
deriving DecidableEq, Repr

/-- A candidate variant as supplied by the vendor payload. -/
structure Variant where
  title : Option String
  price : Option String
  compare_at_price : Option String
  inventory_quantity : Option Int
  option1 : Option String
  option2 : Option String
  option3 : Option String
  sku : Option String
deriving DecidableEq, Repr

/-- A candidate product from the request body of `POST /vendors/sync-products`. -/
structure Product where
  title : Option String
  handle : Option String
  product_type : Option String
  tags : Option Tags
  status : Option String
  images : Option (List String)
  options : Option (List ProductOption)
  variants : Option (List Variant)
deriving DecidableEq, Repr

/-- A product record of the main-store catalog, as used by the handler:
only `id` and `title` are read when building `mainStoreProductMap`. -/
structure MainProduct where
  id : Nat
  title : String
deriving DecidableEq, Repr

/-- A variant of the existing main-store product fetched in the update branch:
only `id` and `sku` are read when building `existingVariantMap`. -/
structure ExistingVariant where
  id : Nat
  sku : Option String
deriving DecidableEq, Repr

/-- Models `mainStoreProducts.products.reduce((map, p) => {map[p.title] = p.id; ...})`
followed by lookup: assignment order means the last catalog entry with a given
title wins. -/
def buildTitleMap (catalog : List MainProduct) (t : String) : Option Nat :=
  (catalog.reverse.find? (fun mp => mp.title == t)).map (fun mp => mp.id)

/-- Models `existingVariants.reduce((map, v) => {if (v.sku) map[v.sku] = v.id; ...})`
followed by lookup: falsy skus are skipped, later assignments win. -/
def buildVariantMap (evs : List ExistingVariant) (s : String) : Option Nat :=
  (((evs.filter (fun ev => !(strFalsy ev.sku))).reverse.find?
      (fun ev => ev.sku == some s)).map (fun ev => ev.id))

/-- ASCII lower-casing of one character (the titles the claims exercise are
ASCII, where JS `toLowerCase` and this agree). -/
def lowerChar (c : Char) : Char :=
  if 65 ≤ c.toNat && c.toNat ≤ 90 then Char.ofNat (c.toNat + 32) else c

/-- ASCII lower-casing of a character list. -/
def lowerChars (l : List Char) : List Char :=
  l.map lowerChar

/-- Handle derivation, `server.js:1781`:
`product.title.toLowerCase().replace(/\s+/g, '-').replace(/[^a-z0-9-]/g, '')`. -/
def jsWhitespace (c : Char) : Bool :=
  c == ' ' || c == '\t' || c == '\n' || c == '\r' || c == '\x0b' || c == '\x0c'

/-- Replaces each maximal whitespace run with a single hyphen; the Boolean
records whether the previous character was part of a whitespace run. -/
def hyphenateWs : Bool → List Char → List Char
  | _, [] => []
  | inRun, c :: cs =>
    if jsWhitespace c then
      if inRun then hyphenateWs true cs else '-' :: hyphenateWs true cs
    else c :: hyphenateWs false cs

/-- Character class `[a-z0-9-]` of the second replace. -/
def keepChar (c : Char) : Bool :=
  (97 ≤ c.toNat && c.toNat ≤ 122) || (48 ≤ c.toNat && c.toNat ≤ 57) || c == '-'

/-- The derived handle of a title. -/
def deriveHandle (t : String) : String :=
  String.mk ((hyphenateWs false (lowerChars t.data)).filter keepChar)

/-- The handle the loop leaves on the product after the
`if (!product.handle) product.handle = ...` step (assuming the title is
present, so the derivation does not throw). -/
def syncedHandle (p : Product) : Option String :=
  if strFalsy p.handle then p.title.map deriveHandle else p.handle

/-- A payload option object; the update branch emits `{name, values}` only,
the create branch adds `position`. -/
structure PayloadOption where
  name : String
  values : List String
  position : Option Nat
deriving DecidableEq, Repr

/-- A variant object of the update payload (`server.js:1813-1840`). -/
structure UpdateVariant where
  id : Option Nat
  price : String
  inventory_quantity : Int
  inventory_management : String
  option1 : Option String
  option2 : Option String
  option3 : Option String
  sku : Option String
  compare_at_price : Option String
deriving DecidableEq, Repr

/-- A variant object of the create payload (`server.js:1877-1889` and the
zero-variant default of `server.js:1891-1896`). -/
structure CreateVariant where
  title : Option String
  price : String
  inventory_quantity : Int
  inventory_management : String
  compare_at_price : Option String
  option1 : Option String
  option2 : Option String
  option3 : Option String
  sku : Option String
deriving DecidableEq, Repr

/-- The update payload (`updatePayload.product`, `server.js:1799-1845`).
Note: it has no `images` and no `handle` field. -/
structure UpdatePayload where
  id : Nat
  title : Option String
  body_html : String
  vendor : String
  product_type : Option String
  tags : Option Tags
  status : String
  options : List PayloadOption
  variants : List UpdateVariant
deriving DecidableEq, Repr

/-- The create payload (`newProductPayload.product`, `server.js:1852-1897`).
Note: it has no `handle` field; `product_type` and `tags` are set only when
truthy. -/
structure CreatePayload where
  title : Option String
  body_html : String
  vendor : String
  status : String
  images : List String
  product_type : Option String
  tags : Option String
  options : List PayloadOption
  variants : List CreateVariant
deriving DecidableEq, Repr

/-- One variant of the update payload: if the candidate sku is truthy and maps
to an existing variant id, that id is carried; otherwise no id is emitted.
The trailing `.map` of the source that strips a `product_id` key is the
identity here, since no variant object ever carries that key. -/
def mkUpdateVariant (emap : String → Option Nat) (v : Variant) : UpdateVariant :=
  { id := match v.sku with
      | some s => if s == "" then none else emap s
      | none => none
    price := jsPriceStr v.price
    inventory_quantity := clampInv v.inventory_quantity
    inventory_management := "shopify"
    option1 := v.option1
    option2 := v.option2
    option3 := v.option3
    sku := v.sku
    compare_at_price := optTruthy v.compare_at_price }

/-- The update payload for an existing product id; `opts` and `vars` are the
candidate product option and variant lists (`product.options.map` and
`product.variants.map` throw before this point when those are absent). -/
def mkUpdatePayload (vendorName : String) (eid : Nat) (emap : String → Option Nat)
    (p : Product) (opts : List ProductOption) (vars : List Variant) : UpdatePayload :=
  { id := eid
    title := p.title
    body_html := ""
    vendor := vendorName
    product_type := p.product_type
    tags := p.tags
    status := jsStatus p.status
    options := opts.map (fun o => { name := o.name, values := o.values, position := none })
    variants := vars.map (mkUpdateVariant emap) }

/-- One create-payload variant (`server.js:1877-1889`): optional fields are
included only when truthy. -/
def mkCreateVariant (v : Variant) : CreateVariant :=
  { title := v.title
    price := jsPriceStr v.price
    inventory_quantity := clampInv v.inventory_quantity
    inventory_management := "shopify"
    compare_at_price := optTruthy v.compare_at_price
    option1 := optTruthy v.option1
    option2 := optTruthy v.option2
    option3 := optTruthy v.option3
    sku := optTruthy v.sku }

/-- Create-payload options with `position: opt.position || index + 1`
(a declared position of 0 is falsy and replaced by the index). -/
def mkCreateOptions (i : Nat) : List ProductOption → List PayloadOption
  | [] => []
  | o :: rest =>
    { name := o.name
      values := o.values
      position := some (match o.position with
        | some n => if n = 0 then i + 1 else n
        | none => i + 1) } :: mkCreateOptions (i + 1) rest

/-- Create-payload tags: set only when `product.tags && product.tags.length > 0`;
an array is comma-joined, a string is passed through. -/
def createTags : Option Tags → Option String
  | none => none
  | some tg =>
    if tg.lengthPos then
      match tg with
      | .arr l => some (String.intercalate "," l)
      | .str s => some s
    else none

/-- The synthetic default variant of the zero-variant branch
(`server.js:1892-1896`): price from `product.variants?.[0]?.price || '0'`,
inventory fixed at 0, no other fields. -/
def defaultVariant (p : Product) : CreateVariant :=
  { title := none
    price := match p.variants with
      | some (v :: _) => jsPriceStr v.price
      | _ => "0"
    inventory_quantity := 0
    inventory_management := "shopify"
    compare_at_price := none
    option1 := none
    option2 := none
    option3 := none
    sku := none }

/-- The create payload (`server.js:1852-1897`). -/
def mkCreatePayload (vendorName : String) (p : Product) : CreatePayload :=
  { title := p.title
    body_html := ""
    vendor := vendorName
    status := jsStatus p.status
    images := p.images.getD []
    product_type := optTruthy p.product_type
    tags := createTags p.tags
    options := match p.variants with
      | some (_ :: _) => mkCreateOptions 0 (p.options.getD [])
      | _ => []
    variants := match p.variants with
      | some (v :: vs) => (v :: vs).map mkCreateVariant
      | _ => [defaultVariant p] }

/-- One line of the chunked progress stream; each constructor stands for one
`res.write` of the handler (rendered text in `render`). -/
inductive Line where
  | starting (vendorName : String)
  | fetchingExisting
  | foundCount (n : Nat)
  | syncing (title : Option String)
  | foundExisting
  | updated
  | creatingNew
  | created
  | failed (msg : String)
  | fatal (msg : String)
deriving DecidableEq, Repr

/-- Renders `undefined` for an absent string, as JS template interpolation does. -/
def jsShowOpt : Option String → String
  | none => "undefined"
  | some s => s

/-- The exact text each stream line carries in `server.js`. -/
def render : Line → String
  | .starting n => "Starting sync for " ++ n ++ "...\n"
  | .fetchingExisting => "Fetching existing products from your store...\n"
  | .foundCount n => "Found " ++ toString n ++ " existing products.\n\n"
  | .syncing t => "Syncing: " ++ jsShowOpt t ++ "...\n"
  | .foundExisting => "  -> Found existing product. Updating...\n"
  | .updated => "  -> Successfully updated.\n\n"
  | .creatingNew => "  -> Product not found. Creating new product...\n"
  | .created => "  -> Successfully created.\n\n"
  | .failed m => "  -> FAILED to sync: " ++ m ++ "\n\n"
  | .fatal m => "\n\nFATAL ERROR: " ++ m

/-- True for the fatal banner of the outer catch. -/
def Line.isFatal : Line → Bool
  | .fatal _ => true
  | _ => false

/-- A terminal per-product outcome: successfully updated, successfully created,
or failed with a reason. -/
def Line.isTerminal : Line → Bool
  | .updated => true
  | .created => true
  | .failed _ => true
  | _ => false

/-- A per-product success line. -/
def Line.isSuccess : Line → Bool
  | .updated => true
  | .created => true
  | _ => false

/-- A per-product failure line. -/
def Line.isFailedLine : Line → Bool
  | .failed _ => true
  | _ => false

/-- Does the second character list contain the first as a contiguous run. -/
def charsStartWith : List Char → List Char → Bool
  | [], _ => true
  | _ :: _, [] => false
  | a :: as, b :: bs => a == b && charsStartWith as bs

/-- Containment of a character pattern anywhere in a list. -/
def charsContain (pat : List Char) : List Char → Bool
  | [] => charsStartWith pat []
  | c :: rest => charsStartWith pat (c :: rest) || charsContain pat rest

/-- Substring test on strings. -/
def strContains (s pat : String) : Bool :=
  charsContain pat.data s.data

/-- Does a stream line mention a sync-completion banner (case-insensitively). -/
def mentionsSyncComplete (l : Line) : Bool :=
  charsContain "sync complete".data (lowerChars (render l).data)

/-- A write the sync loop issues against the main store. -/
inductive Action where
  | update (eid : Nat) (payload : UpdatePayload)
  | create (payload : CreatePayload)
deriving DecidableEq, Repr

/-- The number of variants the written payload carries. -/
def Action.variantCount : Action → Nat
  | .update _ u => u.variants.length
  | .create c => c.variants.length

/-- True when the action is an update to the given id. -/
def Action.isUpdateTo (eid : Nat) : Action → Bool
  | .update i _ => i == eid
  | .create _ => false

/-- The vendor record as consumed by the handler (only the display name is
read by the sync loop; credentials live behind the modelled remote calls). -/
structure Vendor where
  name : String
deriving DecidableEq, Repr

/-- The collaborators of one sync session: vendor resolution
(`getVendorById`), the initial `fetchAllProducts` of the main catalog, the
per-product `fetchFromShopify` of an existing product (only its variant list
is read), and the `putToShopify` / `postToShopify` writes.  `Except.error`
models a rejected promise. -/
structure SyncEnv where
  vendor : Option Vendor
  mainCatalog : Except String (List MainProduct)
  fetchProduct : Nat → Except String (List ExistingVariant)
  putUpdate : Nat → UpdatePayload → Except String Unit
  postCreate : CreatePayload → Except String Unit

/-- The observable result of processing one candidate: stream lines written,
write actions issued, and, when an exception escaped the per-product
try/catch, its message (which aborts the loop into the outer catch). -/
structure StepResult where
  lines : List Line
  actions : List Action
  thrown : Option String
deriving Repr

/-- Message of the TypeError thrown by
`product.title.toLowerCase()` when the title is `undefined`. -/
def tlThrowMsg : String :=
  "Cannot read properties of undefined (reading 'toLowerCase')"

/-- Message of the TypeError thrown by `product.options.map` or
`product.variants.map` when the field is `undefined`. -/
def mapThrowMsg : String :=
  "Cannot read properties of undefined (reading 'map')"

/-- The body of the per-product try block (`server.js:1786-1902`): look the
title up in the main-store map; on a hit fetch the existing product, build
and PUT the update payload; on a miss build and POST the create payload.
Failures raised here are caught by the inner catch, which writes the FAILED
line and lets the loop continue. -/
def processProductBody (env : SyncEnv) (vendorName : String)
    (pm : String → Option Nat) (p : Product) : StepResult :=
  match pm (jsKey p.title) with
  | some eid =>
    match env.fetchProduct eid with
    | .error m => ⟨[.syncing p.title, .foundExisting, .failed m], [], none⟩
    | .ok evs =>
      match p.options with
      | none => ⟨[.syncing p.title, .foundExisting, .failed mapThrowMsg], [], none⟩
      | some opts =>
        match p.variants with
        | none => ⟨[.syncing p.title, .foundExisting, .failed mapThrowMsg], [], none⟩
        | some vars =>
          let payload := mkUpdatePayload vendorName eid (buildVariantMap evs) p opts vars
          match env.putUpdate eid payload with
          | .error m =>
            ⟨[.syncing p.title, .foundExisting, .failed m], [.update eid payload], none⟩
          | .ok _ =>
            ⟨[.syncing p.title, .foundExisting, .updated], [.update eid payload], none⟩
  | none =>
    let payload := mkCreatePayload vendorName p
    match env.postCreate payload with
    | .error m => ⟨[.syncing p.title, .creatingNew, .failed m], [.create payload], none⟩
    | .ok _ => ⟨[.syncing p.title, .creatingNew, .created], [.create payload], none⟩

/-- One iteration of the sync loop (`server.js:1777-1915`): the `Syncing:`
line, then the handle-derivation step, which sits before the try block and
therefore throws out of the loop when both handle and title are absent; then
the guarded body. -/
def processProduct (env : SyncEnv) (vendorName : String)
    (pm : String → Option Nat) (p : Product) : StepResult :=
  if strFalsy p.handle then
    match p.title with
    | none => ⟨[.syncing p.title], [], some tlThrowMsg⟩
    | some t => processProductBody env vendorName pm { p with handle := some (deriveHandle t) }
  else
    processProductBody env vendorName pm p

/-- A candidate passes the unguarded handle-derivation step without throwing. -/
def guardSafe (p : Product) : Bool :=
  !(strFalsy p.handle) || p.title.isSome

/-- The whole per-product loop; a thrown message stops it (control transfers
to the outer catch), already-written lines and already-issued writes stand. -/
def runLoop (env : SyncEnv) (vendorName : String) (pm : String → Option Nat) :
    List Product → StepResult
  | [] => ⟨[], [], none⟩
  | p :: rest =>
    let r := processProduct env vendorName pm p
    match r.thrown with
    | some m => ⟨r.lines, r.actions, some m⟩
    | none =>
      let r2 := runLoop env vendorName pm rest
      ⟨r.lines ++ r2.lines, r.actions ++ r2.actions, r2.thrown⟩

/-- One whole sync session (`server.js:1751-1924`): resolve the vendor (a
miss throws into the outer catch before anything is written), write the
start and fetch banners, fetch the main catalog (a failure throws into the
outer catch), build the title map, run the loop, and end the stream; a
message thrown out of the loop becomes the fatal banner.  Returns the
stream and the writes issued. -/
def syncSession (env : SyncEnv) (productsToSync : List Product) :
    List Line × List Action :=
  match env.vendor with
  | none => ([.fatal "Vendor not found for syncing."], [])
  | some vendor =>
    match env.mainCatalog with
    | .error m => ([.starting vendor.name, .fetchingExisting, .fatal m], [])
    | .ok catalog =>
      let pm := buildTitleMap catalog
      let r := runLoop env vendor.name pm productsToSync
      let pre := [Line.starting vendor.name, Line.fetchingExisting,
        Line.foundCount catalog.length]
      match r.thrown with
      | some m => (pre ++ r.lines ++ [.fatal m], r.actions)
      | none => (pre ++ r.lines, r.actions)

/-- One page of the paginated product listing: the parsed `products` array
and the parsed `link` response header as its list of `(rel, url)` pairs
(the source extracts these with a regex and keeps, per rel, the last pair;
the url is modelled as the request path the `new URL(...)` step yields). -/
structure PageResponse where
  products : List MainProduct
  link : Option (List (String × String))

/-- Models the regex-and-reduce over the link header followed by
`links.next`: the last entry with rel `next` wins. -/
def linkNext (entries : List (String × String)) : Option String :=
  (entries.reverse.find? (fun e => e.1 == "next")).map (fun e => e.2)

/-- The initial request path of `fetchAllProducts`, page size 250. -/
def fetchInitialPath : String :=
  "/admin/api/2024-04/products.json?limit=250"

/-- The `while (apiPath)` loop of `fetchAllProducts` (`server.js:223-295`),
with the remote modelled as a map from request path to page response and a
fuel bound on the iteration count; accumulates products and counts requests. -/
def fetchPagesGo (server : String → Except String PageResponse) :
    Nat → String → List MainProduct → Nat → Except String (List MainProduct × Nat)
  | 0, _, acc, reqs => .ok (acc, reqs)
  | fuel + 1, path, acc, reqs =>
    match server path with
    | .error m => .error m
    | .ok pg =>
      match pg.link with
      | none => .ok (acc ++ pg.products, reqs + 1)
      | some entries =>
        match linkNext entries with
        | none => .ok (acc ++ pg.products, reqs + 1)
        | some nextPath => fetchPagesGo server fuel nextPath (acc ++ pg.products) (reqs + 1)

/-- `fetchAllProducts`: start at the limit-250 listing path with an empty
accumulator. -/
def fetchAllProducts (server : String → Except String PageResponse) (fuel : Nat) :
    Except String (List MainProduct × Nat) :=
  fetchPagesGo server fuel fetchInitialPath [] 0

/-! ## Helper lemmas -/

theorem buildTitleMap_some_mem (catalog : List MainProduct) (t : String) (i : Nat)
    (h : buildTitleMap catalog t = some i) : ∃ mp ∈ catalog, mp.title = t ∧ mp.id = i := by
  unfold buildTitleMap at h
  rcases Option.map_eq_some'.mp h with ⟨mp, hfind, hid⟩
  refine ⟨mp, List.mem_reverse.mp (List.mem_of_find?_eq_some hfind), ?_, hid⟩
  have := List.find?_some hfind
  simpa using this

theorem buildTitleMap_isSome_of_mem (catalog : List MainProduct) (t : String)
    (h : ∃ mp ∈ catalog, mp.title = t) : ∃ i, buildTitleMap catalog t = some i := by
  rcases h with ⟨mp, hmem, ht⟩
  have hs : (catalog.reverse.find? (fun mp => mp.title == t)).isSome := by
    rw [List.find?_isSome]
    exact ⟨mp, List.mem_reverse.mpr hmem, by simp [ht]⟩
  rcases Option.isSome_iff_exists.mp hs with ⟨mp2, hmp2⟩
  exact ⟨mp2.id, by simp [buildTitleMap, hmp2]⟩

theorem buildVariantMap_some_mem (evs : List ExistingVariant) (s : String) (i : Nat)
    (h : buildVariantMap evs s = some i) : ∃ ev ∈ evs, ev.sku = some s ∧ ev.id = i := by
  unfold buildVariantMap at h
  rcases Option.map_eq_some'.mp h with ⟨ev, hfind, hid⟩
  have hmem : ev ∈ evs :=
    (List.mem_filter.mp (List.mem_reverse.mp (List.mem_of_find?_eq_some hfind))).1
  have hp := List.find?_some hfind
  exact ⟨ev, hmem, by simpa using hp, hid⟩

theorem buildVariantMap_none_of_not_mem (evs : List ExistingVariant) (s : String)
    (h : ∀ ev ∈ evs, ev.sku ≠ some s) : buildVariantMap evs s = none := by
  unfold buildVariantMap
  rw [Option.map_eq_none', List.find?_eq_none]
  intro ev hmem
  have : ev ∈ evs :=
    (List.mem_filter.mp (List.mem_reverse.mp hmem)).1
  simpa using h ev this

theorem processProductBody_handle (env : SyncEnv) (vn : String)
    (pm : String → Option Nat) (p : Product) (h : Option String) :
    processProductBody env vn pm { p with handle := h } = processProductBody env vn pm p := rfl

theorem processProduct_title_some (env : SyncEnv) (vn : String)
    (pm : String → Option Nat) (p : Product) (t : String) (ht : p.title = some t) :
    processProduct env vn pm p = processProductBody env vn pm p := by
  unfold processProduct
  by_cases hh : strFalsy p.handle
  · simp only [hh, if_true, ht]
    rw [← ht]
    exact processProductBody_handle env vn pm p (some (deriveHandle t))
  · simp only [hh, Bool.false_eq_true, if_false]

/-! ## Claim C4 -/

/-- Claim C4 (confirmed): when a candidate's handle is absent (falsy), the
handle left on the product after the derivation step is the title
lower-cased with whitespace runs hyphenated and all characters outside
`[a-z0-9-]` stripped; the spec's example title derives `mens-t-shirt`; a
candidate carrying a (truthy) handle keeps it unchanged. -/
theorem handle_derivation (p : Product) (t : String) (h : String) :
    (strFalsy p.handle = true → p.title = some t →
      syncedHandle p = some (deriveHandle t)) ∧
    (p.handle = some h → h ≠ "" → syncedHandle p = p.handle) ∧
    deriveHandle "Men's T-Shirt!!" = "mens-t-shirt" := by
  refine ⟨?_, ?_, by decide⟩
  · intro hf ht
    simp [syncedHandle, hf, ht]
  · intro hh hne
    simp [syncedHandle, strFalsy, hh, hne]

/-- Product literal with only a title, used to instantiate `handle_derivation`. -/
def c4NoHandle : Product :=
  { title := some "Men's T-Shirt!!", handle := none, product_type := none, tags := none
    status := none, images := none, options := none, variants := none }

/-- Product literal carrying a handle, used to instantiate `handle_derivation`. -/
def c4WithHandle : Product :=
  { title := some "Men's T-Shirt!!", handle := some "keep-me", product_type := none
    tags := none, status := none, images := none, options := none, variants := none }

theorem handle_derivation_witness :
    syncedHandle c4NoHandle = some (deriveHandle "Men's T-Shirt!!") ∧
    syncedHandle c4WithHandle = some "keep-me" ∧
    deriveHandle "Men's T-Shirt!!" = "mens-t-shirt" :=
  ⟨(handle_derivation c4NoHandle "Men's T-Shirt!!" "x").1 (by decide) rfl,
   (handle_derivation c4WithHandle "Men's T-Shirt!!" "keep-me").2.1 rfl (by decide),
   (handle_derivation c4NoHandle "Men's T-Shirt!!" "x").2.2⟩

/-! ## Claim C5 -/

/-- Claim C5 (confirmed): in the update payload, a candidate variant whose
(truthy) SKU is found in the existing-variant map carries that existing
variant's id together with the coerced price; when the map has the SKU it
is the id of an existing variant with that SKU; when no existing variant
carries the SKU, the emitted variant has no id. -/
theorem sku_variant_identity (evs : List ExistingVariant) (v : Variant) (s : String)
    (hs : v.sku = some s) (hne : s ≠ "") :
    (∀ i, buildVariantMap evs s = some i →
      (mkUpdateVariant (buildVariantMap evs) v).id = some i) ∧
    (∀ i, buildVariantMap evs s = some i → ∃ ev ∈ evs, ev.sku = some s ∧ ev.id = i) ∧
    ((∀ ev ∈ evs, ev.sku ≠ some s) →
      (mkUpdateVariant (buildVariantMap evs) v).id = none) ∧
    (mkUpdateVariant (buildVariantMap evs) v).price = jsPriceStr v.price := by
  refine ⟨?_, ?_, ?_, rfl⟩
  · intro i hi
    simp [mkUpdateVariant, hs, hne, hi]
  · intro i hi
    exact buildVariantMap_some_mem evs s i hi
  · intro hnone
    simp [mkUpdateVariant, hs, hne, buildVariantMap_none_of_not_mem evs s hnone]

/-- Candidate variant with sku `A1` and price `20`, for `sku_variant_identity`. -/
def c5VarA1 : Variant :=
  { title := none, price := some "20", compare_at_price := none, inventory_quantity := none
    option1 := none, option2 := none, option3 := none, sku := some "A1" }

/-- Candidate variant with unmatched sku `B2`, for `sku_variant_identity`. -/
def c5VarB2 : Variant :=
  { title := none, price := some "20", compare_at_price := none, inventory_quantity := none
    option1 := none, option2 := none, option3 := none, sku := some "B2" }

theorem sku_variant_identity_witness :
    (mkUpdateVariant (buildVariantMap [⟨9, some "A1"⟩]) c5VarA1).id = some 9 ∧
    (mkUpdateVariant (buildVariantMap [⟨9, some "A1"⟩]) c5VarA1).price = "20" ∧
    (mkUpdateVariant (buildVariantMap [⟨9, some "A1"⟩]) c5VarB2).id = none :=
  ⟨(sku_variant_identity [⟨9, some "A1"⟩] c5VarA1 "A1" rfl (by decide)).1 9 (by decide),
   (sku_variant_identity [⟨9, some "A1"⟩] c5VarA1 "A1" rfl (by decide)).2.2.2,
   (sku_variant_identity [⟨9, some "A1"⟩] c5VarB2 "B2" rfl (by decide)).2.2.1 (by decide)⟩

/-! ## Claim C9 -/

/-- Claim C9 (confirmed): the update payload is independent of the candidate
images, since the payload object carries no images field at all, while the
create payload passes the candidate images through (defaulting to the empty
list). -/
theorem update_ignores_images (vn : String) (eid : Nat) (emap : String → Option Nat)
    (p : Product) (opts : List ProductOption) (vars : List Variant)
    (i1 i2 : Option (List String)) :
    mkUpdatePayload vn eid emap { p with images := i1 } opts vars =
      mkUpdatePayload vn eid emap { p with images := i2 } opts vars ∧
    (mkCreatePayload vn p).images = p.images.getD [] :=
  ⟨rfl, rfl⟩

/-! ## Claim C10 -/

/-- Claim C10 (confirmed): for a candidate with a (fixed, present) title, the
whole observable step — the create-vs-update decision, the stream lines and
the emitted payload — is the same whether or not the candidate carries a
handle; thus the derived handle is never a matching key and never reaches a
payload. -/
theorem handle_noninterference (env : SyncEnv) (vn : String)
    (pm : String → Option Nat) (p : Product) (t : String)
    (h1 h2 : Option String) (ht : p.title = some t) :
    processProduct env vn pm { p with handle := h1 } =
      processProduct env vn pm { p with handle := h2 } := by
  calc processProduct env vn pm { p with handle := h1 }
      = processProductBody env vn pm { p with handle := h1 } :=
        processProduct_title_some env vn pm { p with handle := h1 } t ht
    _ = processProductBody env vn pm p := processProductBody_handle env vn pm p h1
    _ = processProductBody env vn pm { p with handle := h2 } :=
        (processProductBody_handle env vn pm p h2).symm
    _ = processProduct env vn pm { p with handle := h2 } :=
        (processProduct_title_some env vn pm { p with handle := h2 } t ht).symm

/-- Candidate used to instantiate `handle_noninterference`. -/
def c10P : Product :=
  { title := some "Widget", handle := none, product_type := none, tags := none
    status := none, images := none, options := some [], variants := some [] }

/-- Session collaborators used to instantiate `handle_noninterference`. -/
def c10Env : SyncEnv :=
  { vendor := some ⟨"V"⟩
    mainCatalog := .ok [⟨1, "Widget"⟩]
    fetchProduct := fun _ => .ok []
    putUpdate := fun _ _ => .ok ()
    postCreate := fun _ => .ok () }

theorem handle_noninterference_witness :
    processProduct c10Env "V" (buildTitleMap [⟨1, "Widget"⟩])
        { c10P with handle := some "custom-handle" } =
      processProduct c10Env "V" (buildTitleMap [⟨1, "Widget"⟩])
        { c10P with handle := none } :=
  handle_noninterference c10Env "V" (buildTitleMap [⟨1, "Widget"⟩]) c10P "Widget"
    (some "custom-handle") none rfl

/-! ## Claim C3 -/

/-- True when the action creates a product. -/
def Action.isCreate : Action → Bool
  | .create _ => true
  | .update _ _ => false

theorem processProductBody_actions_update (env : SyncEnv) (vn : String)
    (pm : String → Option Nat) (p : Product) (eid : Nat)
    (h : pm (jsKey p.title) = some eid) :
    ((processProductBody env vn pm p).actions.all (Action.isUpdateTo eid)) = true := by
  unfold processProductBody
  rw [h]
  rcases hf : env.fetchProduct eid with m | evs
  · simp [hf, Action.isUpdateTo]
  · rcases ho : p.options with _ | opts
    · simp [hf, ho, Action.isUpdateTo]
    · rcases hv : p.variants with _ | vars
      · simp [hf, ho, hv, Action.isUpdateTo]
      · rcases hp : env.putUpdate eid
            (mkUpdatePayload vn eid (buildVariantMap evs) p opts vars) with m | u <;>
          simp [hf, ho, hv, hp, Action.isUpdateTo]

theorem processProductBody_actions_create (env : SyncEnv) (vn : String)
    (pm : String → Option Nat) (p : Product)
    (h : pm (jsKey p.title) = none) :
    ((processProductBody env vn pm p).actions.all Action.isCreate) = true ∧
    (processProductBody env vn pm p).actions.length = 1 := by
  unfold processProductBody
  rw [h]
  rcases hc : env.postCreate (mkCreatePayload vn p) with m | u <;>
    simp [hc, Action.isCreate]

/-- Claim C3 (confirmed): the session map sends a title to a main-catalog
product id carrying that title (and finds one whenever the catalog has one);
a candidate whose title is in the map only ever produces update writes to
the mapped id, and a candidate whose title is not in the map produces
exactly one create write. -/
theorem match_by_title (env : SyncEnv) (vn : String) (catalog : List MainProduct)
    (p : Product) (t : String) (ht : p.title = some t) :
    (∀ i, buildTitleMap catalog t = some i →
      ((processProduct env vn (buildTitleMap catalog) p).actions.all
        (Action.isUpdateTo i)) = true) ∧
    (buildTitleMap catalog t = none →
      ((processProduct env vn (buildTitleMap catalog) p).actions.all Action.isCreate) = true ∧
      (processProduct env vn (buildTitleMap catalog) p).actions.length = 1) ∧
    (∀ i, buildTitleMap catalog t = some i → ∃ mp ∈ catalog, mp.title = t ∧ mp.id = i) ∧
    ((∃ mp ∈ catalog, mp.title = t) → ∃ i, buildTitleMap catalog t = some i) := by
  have hkey : jsKey p.title = t := by rw [ht]; rfl
  rw [processProduct_title_some env vn (buildTitleMap catalog) p t ht]
  refine ⟨?_, ?_, buildTitleMap_some_mem catalog t, buildTitleMap_isSome_of_mem catalog t⟩
  · intro i hi
    exact processProductBody_actions_update env vn (buildTitleMap catalog) p i
      (by rw [hkey]; exact hi)
  · intro hn
    exact processProductBody_actions_create env vn (buildTitleMap catalog) p
      (by rw [hkey]; exact hn)

/-- Candidate titled `Widget`, used to instantiate `match_by_title`. -/
def c3Widget : Product :=
  { title := some "Widget", handle := some "widget", product_type := none, tags := none
    status := none, images := none, options := some [], variants := some [] }

/-- Candidate titled `Gadget` (no catalog match), for `match_by_title`. -/
def c3Gadget : Product :=
  { title := some "Gadget", handle := some "gadget", product_type := none, tags := none
    status := none, images := none, options := some [], variants := some [] }

/-- Session collaborators used to instantiate `match_by_title`. -/
def c3Env : SyncEnv :=
  { vendor := some ⟨"V"⟩
    mainCatalog := .ok [⟨1, "Widget"⟩]
    fetchProduct := fun _ => .ok []
    putUpdate := fun _ _ => .ok ()
    postCreate := fun _ => .ok () }

theorem match_by_title_witness :
    ((processProduct c3Env "V" (buildTitleMap [⟨1, "Widget"⟩]) c3Widget).actions.all
      (Action.isUpdateTo 1)) = true ∧
    ((processProduct c3Env "V" (buildTitleMap [⟨1, "Widget"⟩]) c3Gadget).actions.all
      Action.isCreate) = true ∧
    (processProduct c3Env "V" (buildTitleMap [⟨1, "Widget"⟩]) c3Gadget).actions.length = 1 :=
  ⟨(match_by_title c3Env "V" [⟨1, "Widget"⟩] c3Widget "Widget" rfl).1 1 (by decide),
   ((match_by_title c3Env "V" [⟨1, "Widget"⟩] c3Gadget "Gadget" rfl).2.1 (by decide)).1,
   ((match_by_title c3Env "V" [⟨1, "Widget"⟩] c3Gadget "Gadget" rfl).2.1 (by decide)).2⟩

/-! ## Claim C6 -/

/-- Claim C6 (amended): a candidate with an absent or empty variants list
yields a create payload with empty options and exactly the one synthetic
variant, priced `"0"` (no nested price available) with inventory 0, so
every create payload carries at least one variant; the update payload,
however, mirrors the candidate variant list and may carry zero variants. -/
theorem create_default_variant (vn vn2 : String) (p p2 : Product)
    (h : p.variants = none ∨ p.variants = some []) :
    (mkCreatePayload vn p).options = [] ∧
    (mkCreatePayload vn p).variants = [defaultVariant p] ∧
    (defaultVariant p).price = "0" ∧
    (defaultVariant p).inventory_quantity = 0 ∧
    1 ≤ (mkCreatePayload vn2 p2).variants.length := by
  have hopts : (mkCreatePayload vn p).options = [] := by
    rcases h with h | h <;> simp [mkCreatePayload, h]
  have hvars : (mkCreatePayload vn p).variants = [defaultVariant p] := by
    rcases h with h | h <;> simp [mkCreatePayload, h]
  have hprice : (defaultVariant p).price = "0" := by
    rcases h with h | h <;> simp [defaultVariant, h]
  refine ⟨hopts, hvars, hprice, rfl, ?_⟩
  rcases hv : p2.variants with _ | vars
  · simp [mkCreatePayload, hv]
  · rcases vars with _ | ⟨v, vs⟩ <;> simp [mkCreatePayload, hv]

/-- Candidate with a declared option but an empty variants list, used to
instantiate `create_default_variant`. -/
def c6P : Product :=
  { title := some "Widget", handle := some "widget", product_type := none, tags := none
    status := none, images := none
    options := some [⟨"Size", ["M"], none⟩], variants := some [] }

theorem create_default_variant_witness :
    (mkCreatePayload "V" c6P).options = [] ∧
    (mkCreatePayload "V" c6P).variants = [defaultVariant c6P] ∧
    (defaultVariant c6P).price = "0" ∧
    (defaultVariant c6P).inventory_quantity = 0 ∧
    1 ≤ (mkCreatePayload "V" c6P).variants.length :=
  create_default_variant "V" "V" c6P c6P (Or.inr rfl)

/-- Session collaborators for the zero-variant update counterexample. -/
def c6Env : SyncEnv :=
  { vendor := some ⟨"V"⟩
    mainCatalog := .ok [⟨1, "Widget"⟩]
    fetchProduct := fun _ => .ok []
    putUpdate := fun _ _ => .ok ()
    postCreate := fun _ => .ok () }

/-- Zero-variant candidate whose title matches the catalog. -/
def c6CexP : Product :=
  { title := some "Widget", handle := some "widget", product_type := none, tags := none
    status := none, images := none, options := some [], variants := some [] }

theorem create_default_variant_cex :
    (syncSession c6Env [c6CexP]).2 =
      [Action.update 1 (mkUpdatePayload "V" 1 (buildVariantMap []) c6CexP [] [])] ∧
    (mkUpdatePayload "V" 1 (buildVariantMap []) c6CexP [] []).variants = [] ∧
    Action.variantCount
      (Action.update 1 (mkUpdatePayload "V" 1 (buildVariantMap []) c6CexP [] [])) = 0 := by
  refine ⟨rfl, rfl, rfl⟩

/-! ## Claim C7 -/

/-- Claim C7 (amended): the create payload normalizes a nonempty tags array
to a single comma-joined string and passes a nonempty tags string through;
the update payload passes the tags value through unchanged, so an array of
tags reaches the update payload as an array, not as a joined string. -/
theorem tags_normalization (vn : String) (eid : Nat) (emap : String → Option Nat)
    (p : Product) (opts : List ProductOption) (vars : List Variant)
    (l : List String) (s : String) :
    (p.tags = some (Tags.arr l) → l ≠ [] →
      (mkCreatePayload vn p).tags = some (String.intercalate "," l)) ∧
    (p.tags = some (Tags.str s) → s ≠ "" →
      (mkCreatePayload vn p).tags = some s) ∧
    (mkUpdatePayload vn eid emap p opts vars).tags = p.tags := by
  refine ⟨?_, ?_, rfl⟩
  · intro ht hl
    have : 0 < l.length := List.length_pos.mpr hl
    simp [mkCreatePayload, createTags, ht, Tags.lengthPos, this]
  · intro ht hs
    have : 0 < s.length := by
      cases hd : s.data with
      | nil =>
        exact absurd (by cases s; simp_all) hs
      | cons c cs =>
        simp [String.length, hd]
    simp [mkCreatePayload, createTags, ht, Tags.lengthPos, this]

/-- Candidate with array-valued tags, used for the tags witness. -/
def c7ArrP : Product :=
  { title := some "Gadget", handle := some "gadget", product_type := none
    tags := some (.arr ["a", "b"]), status := none, images := none
    options := some [], variants := some [] }

/-- Candidate with string-valued tags, used for the tags witness. -/
def c7StrP : Product :=
  { title := some "Gadget", handle := some "gadget", product_type := none
    tags := some (.str "a,b"), status := none, images := none
    options := some [], variants := some [] }

theorem tags_normalization_witness :
    (mkCreatePayload "V" c7ArrP).tags = some (String.intercalate "," ["a", "b"]) ∧
    (mkCreatePayload "V" c7StrP).tags = some "a,b" ∧
    (mkUpdatePayload "V" 1 (buildVariantMap []) c7ArrP [] []).tags =
      some (Tags.arr ["a", "b"]) :=
  ⟨(tags_normalization "V" 1 (buildVariantMap []) c7ArrP [] [] ["a", "b"] "a,b").1
      rfl (by decide),
   (tags_normalization "V" 1 (buildVariantMap []) c7StrP [] [] ["a", "b"] "a,b").2.1
      rfl (by decide),
   (tags_normalization "V" 1 (buildVariantMap []) c7ArrP [] [] ["a", "b"] "a,b").2.2⟩

/-- Session collaborators for the update-tags counterexample. -/
def c7Env : SyncEnv :=
  { vendor := some ⟨"V"⟩
    mainCatalog := .ok [⟨1, "Widget"⟩]
    fetchProduct := fun _ => .ok []
    putUpdate := fun _ _ => .ok ()
    postCreate := fun _ => .ok () }

/-- Array-tagged candidate whose title matches the catalog. -/
def c7CexP : Product :=
  { title := some "Widget", handle := some "widget", product_type := none
    tags := some (.arr ["a", "b"]), status := none, images := none
    options := some [], variants := some [] }

theorem tags_normalization_cex :
    (syncSession c7Env [c7CexP]).2 =
      [Action.update 1 (mkUpdatePayload "V" 1 (buildVariantMap []) c7CexP [] [])] ∧
    (mkUpdatePayload "V" 1 (buildVariantMap []) c7CexP [] []).tags =
      some (Tags.arr ["a", "b"]) ∧
    Tags.isStringVal (Tags.arr ["a", "b"]) = false := by
  refine ⟨rfl, rfl, rfl⟩

/-! ## Claim C8 -/

/-- Claim C8 (confirmed): the paginated fetch starts at the limit-250
listing path and follows the next relation of each link header; for a
three-page chain whose first two responses carry a next link and whose last
does not, exactly 3 requests are issued and the result is the concatenation
of the three pages (so its length is the sum of the page lengths). -/
theorem pagination_three_pages (server : String → Except String PageResponse)
    (fuel : Nat) (p1 p2 : String) (ps1 ps2 ps3 : List MainProduct)
    (h0 : server fetchInitialPath = .ok ⟨ps1, some [("next", p1)]⟩)
    (h1 : server p1 = .ok ⟨ps2, some [("next", p2)]⟩)
    (h2 : server p2 = .ok ⟨ps3, none⟩)
    (hf : 3 ≤ fuel) :
    fetchAllProducts server fuel = .ok (ps1 ++ ps2 ++ ps3, 3) ∧
    (∀ res, fetchAllProducts server fuel = .ok res →
      res.1.length = ps1.length + ps2.length + ps3.length) ∧
    strContains fetchInitialPath "limit=250" = true := by
  obtain ⟨k, hk⟩ := Nat.le.dest hf
  have hfuel : fuel = k + 3 := by omega
  subst hfuel
  have hrun : fetchAllProducts server (k + 3) = .ok (ps1 ++ ps2 ++ ps3, 3) := by
    unfold fetchAllProducts
    show fetchPagesGo server (k + 2 + 1) fetchInitialPath [] 0 = _
    unfold fetchPagesGo
    rw [h0]
    simp only [linkNext, List.reverse_singleton, List.find?_cons]
    norm_num
    show fetchPagesGo server (k + 1 + 1) p1 ([] ++ ps1) 1 = _
    unfold fetchPagesGo
    rw [h1]
    simp only [linkNext, List.reverse_singleton, List.find?_cons]
    norm_num
    show fetchPagesGo server (k + 0 + 1) p2 ([] ++ ps1 ++ ps2) 2 = _
    unfold fetchPagesGo
    rw [h2]
    simp
  refine ⟨hrun, ?_, by decide⟩
  intro res hres
  rw [hrun] at hres
  cases hres
  simp [Nat.add_assoc]

/-- Concrete three-page server for the pagination witness. -/
def c8Server : String → Except String PageResponse := fun path =>
  if path == fetchInitialPath then .ok ⟨[⟨1, "A"⟩], some [("next", "/page2")]⟩
  else if path == "/page2" then .ok ⟨[⟨2, "B"⟩, ⟨3, "C"⟩], some [("next", "/page3")]⟩
  else if path == "/page3" then .ok ⟨[⟨4, "D"⟩], none⟩
  else .error "404"

theorem pagination_three_pages_witness :
    fetchAllProducts c8Server 5 =
      .ok ([⟨1, "A"⟩] ++ [⟨2, "B"⟩, ⟨3, "C"⟩] ++ [⟨4, "D"⟩], 3) :=
  (pagination_three_pages c8Server 5 "/page2" "/page3"
    [⟨1, "A"⟩] [⟨2, "B"⟩, ⟨3, "C"⟩] [⟨4, "D"⟩] rfl rfl rfl (by omega)).1

/-! ## Claim C1 -/

theorem processProductBody_one_terminal (env : SyncEnv) (vn : String)
    (pm : String → Option Nat) (p : Product) :
    (processProductBody env vn pm p).thrown = none ∧
    ((processProductBody env vn pm p).lines.countP (fun l => Line.isTerminal l)) = 1 := by
  unfold processProductBody
  rcases hm : pm (jsKey p.title) with _ | eid
  · rcases hc : env.postCreate (mkCreatePayload vn p) with m | u <;>
      simp [hm, hc, Line.isTerminal]
  · rcases hf : env.fetchProduct eid with m | evs
    · simp [hm, hf, Line.isTerminal]
    · rcases ho : p.options with _ | opts
      · simp [hm, hf, ho, Line.isTerminal]
      · rcases hv : p.variants with _ | vars
        · simp [hm, hf, ho, hv, Line.isTerminal]
        · rcases hp : env.putUpdate eid
              (mkUpdatePayload vn eid (buildVariantMap evs) p opts vars) with m | u <;>
            simp [hm, hf, ho, hv, hp, Line.isTerminal]

theorem processProduct_one_terminal (env : SyncEnv) (vn : String)
    (pm : String → Option Nat) (p : Product) (h : guardSafe p = true) :
    (processProduct env vn pm p).thrown = none ∧
    ((processProduct env vn pm p).lines.countP (fun l => Line.isTerminal l)) = 1 := by
  by_cases hh : strFalsy p.handle
  · have ht : p.title.isSome := by
      simpa [guardSafe, hh] using h
    rcases hts : p.title with _ | t
    · rw [hts] at ht
      simp at ht
    · rw [processProduct_title_some env vn pm p t hts]
      exact processProductBody_one_terminal env vn pm p
  · unfold processProduct
    simp only [hh, Bool.false_eq_true, if_false]
    exact processProductBody_one_terminal env vn pm p

theorem runLoop_isolation (env : SyncEnv) (vn : String) (pm : String → Option Nat)
    (products : List Product) (h : ∀ p ∈ products, guardSafe p = true) :
    (runLoop env vn pm products).thrown = none ∧
    ((runLoop env vn pm products).lines.countP (fun l => Line.isTerminal l)) =
      products.length := by
  induction products with
  | nil => simp [runLoop]
  | cons p rest ih =>
    have hp := processProduct_one_terminal env vn pm p (h p (by simp))
    have hr := ih (fun q hq => h q (by simp [hq]))
    unfold runLoop
    simp only [hp.1, List.countP_append, List.length_cons, hr.1, hp.2, hr.2]
    exact ⟨trivial, by omega⟩

/-- Claim C1 (amended): a failure raised inside the per-product try block
(remote fetch, payload construction, remote write) is caught locally and
reported, and every guard-safe candidate (title or truthy handle present)
contributes exactly one terminal line — updated, created, or
failed-with-reason — with the loop running to the end of the list; but a
candidate with neither a title nor a truthy handle throws in the
handle-derivation step before the try block, so the loop stops there and
the remaining candidates are never processed. -/
theorem per_item_isolation (env env2 : SyncEnv) (vn vn2 : String)
    (pm pm2 : String → Option Nat) (products : List Product)
    (bad : Product) (rest : List Product)
    (hsafe : ∀ p ∈ products, guardSafe p = true)
    (hbad : guardSafe bad = false) :
    ((runLoop env vn pm products).thrown = none ∧
      ((runLoop env vn pm products).lines.countP (fun l => Line.isTerminal l)) =
        products.length) ∧
    runLoop env2 vn2 pm2 (bad :: rest) =
      ⟨[Line.syncing bad.title], [], some tlThrowMsg⟩ := by
  refine ⟨runLoop_isolation env vn pm products hsafe, ?_⟩
  have hh : strFalsy bad.handle = true := by
    rcases hb : strFalsy bad.handle with _ | _
    · exfalso
      unfold guardSafe at hbad
      rw [hb] at hbad
      simp at hbad
    · rfl
  have ht : bad.title = none := by
    rcases hbt : bad.title with _ | t
    · rfl
    · exfalso
      unfold guardSafe at hbad
      rw [hh, hbt] at hbad
      simp at hbad
  have hstep : processProduct env2 vn2 pm2 bad =
      ⟨[Line.syncing bad.title], [], some tlThrowMsg⟩ := by
    unfold processProduct
    simp only [hh, if_true, ht]
  unfold runLoop
  rw [hstep]

/-- Collaborators whose create call fails exactly for the title `Bad`. -/
def c1Env : SyncEnv :=
  { vendor := some ⟨"V"⟩
    mainCatalog := .ok []
    fetchProduct := fun _ => .ok []
    putUpdate := fun _ _ => .ok ()
    postCreate := fun c => if c.title == some "Bad" then .error "boom" else .ok () }

/-- A guaranteed-success candidate. -/
def c1Good1 : Product :=
  { title := some "Good one", handle := some "good-one", product_type := none, tags := none
    status := none, images := none, options := some [], variants := some [] }

/-- A candidate whose remote create is rejected (caught by the inner catch). -/
def c1Fails : Product :=
  { title := some "Bad", handle := some "bad", product_type := none, tags := none
    status := none, images := none, options := some [], variants := some [] }

/-- A second guaranteed-success candidate. -/
def c1Good2 : Product :=
  { title := some "Good two", handle := some "good-two", product_type := none, tags := none
    status := none, images := none, options := some [], variants := some [] }

/-- A candidate with neither title nor handle: the derivation step throws. -/
def c1NoTitle : Product :=
  { title := none, handle := none, product_type := none, tags := none
    status := none, images := none, options := none, variants := none }

theorem per_item_isolation_witness :
    ((runLoop c1Env "V" (buildTitleMap []) [c1Good1, c1Fails, c1Good2]).thrown = none ∧
      ((runLoop c1Env "V" (buildTitleMap [])
        [c1Good1, c1Fails, c1Good2]).lines.countP (fun l => Line.isTerminal l)) = 3) ∧
    runLoop c1Env "V" (buildTitleMap []) [c1NoTitle, c1Good1] =
      ⟨[Line.syncing none], [], some tlThrowMsg⟩ :=
  per_item_isolation c1Env c1Env "V" "V" (buildTitleMap []) (buildTitleMap [])
    [c1Good1, c1Fails, c1Good2] c1NoTitle [c1Good1] (by decide) (by decide)

theorem per_item_isolation_cex :
    (syncSession c1Env [c1NoTitle, c1Good1]).1 =
      [Line.starting "V", Line.fetchingExisting, Line.foundCount 0,
        Line.syncing none, Line.fatal tlThrowMsg] ∧
    ((syncSession c1Env [c1NoTitle, c1Good1]).1.countP (fun l => Line.isSuccess l)) = 0 ∧
    ((syncSession c1Env [c1NoTitle, c1Good1]).1.countP (fun l => Line.isFailedLine l)) = 0 ∧
    (syncSession c1Env [c1NoTitle, c1Good1]).2 = [] := by
  refine ⟨rfl, rfl, rfl, rfl⟩

/-! ## Claim C2 -/

/-- Claim C2 (amended): an unresolvable vendor id or a failed initial
catalog fetch ends the stream with a fatal banner before any product is
processed or written; but after the candidate list is exhausted the stream
simply ends with the last per-product line — no terminal sync-complete line
is emitted — and a candidate with neither title nor truthy handle also
produces the fatal banner mid-session, after earlier products were already
written. -/
theorem session_fatal_banner (env env2 : SyncEnv) (v : Vendor) (m : String)
    (products products2 : List Product)
    (hv : env.vendor = none)
    (hv2 : env2.vendor = some v) (hm2 : env2.mainCatalog = .error m) :
    syncSession env products = ([Line.fatal "Vendor not found for syncing."], []) ∧
    syncSession env2 products2 =
      ([Line.starting v.name, Line.fetchingExisting, Line.fatal m], []) := by
  constructor
  · unfold syncSession
    rw [hv]
  · unfold syncSession
    rw [hv2, hm2]

/-- Collaborators with no resolvable vendor. -/
def c2NoVendorEnv : SyncEnv :=
  { vendor := none
    mainCatalog := .ok []
    fetchProduct := fun _ => .ok []
    putUpdate := fun _ _ => .ok ()
    postCreate := fun _ => .ok () }

/-- Collaborators whose initial catalog fetch fails. -/
def c2FetchFailEnv : SyncEnv :=
  { vendor := some ⟨"V"⟩
    mainCatalog := .error "Shopify API responded with status 500"
    fetchProduct := fun _ => .ok []
    putUpdate := fun _ _ => .ok ()
    postCreate := fun _ => .ok () }

theorem session_fatal_banner_witness :
    syncSession c2NoVendorEnv [] = ([Line.fatal "Vendor not found for syncing."], []) ∧
    syncSession c2FetchFailEnv [] =
      ([Line.starting "V", Line.fetchingExisting,
        Line.fatal "Shopify API responded with status 500"], []) :=
  session_fatal_banner c2NoVendorEnv c2FetchFailEnv ⟨"V"⟩
    "Shopify API responded with status 500" [] [] rfl rfl rfl

/-- Collaborators for a session that completes normally. -/
def c2OkEnv : SyncEnv :=
  { vendor := some ⟨"V"⟩
    mainCatalog := .ok []
    fetchProduct := fun _ => .ok []
    putUpdate := fun _ _ => .ok ()
    postCreate := fun _ => .ok () }

/-- A candidate that syncs successfully. -/
def c2P : Product :=
  { title := some "Widget", handle := some "widget", product_type := none, tags := none
    status := none, images := none, options := some [], variants := some [] }

theorem session_fatal_banner_cex :
    (syncSession c2OkEnv [c2P]).1 =
      [Line.starting "V", Line.fetchingExisting, Line.foundCount 0,
        Line.syncing (some "Widget"), Line.creatingNew, Line.created] ∧
    (syncSession c2OkEnv [c2P]).1.getLast? = some Line.created ∧
    Line.isFatal Line.created = false ∧
    ((syncSession c2OkEnv [c2P]).1.all (fun l => !(mentionsSyncComplete l))) = true := by
  refine ⟨rfl, rfl, rfl, by decide⟩

end ShopSync
